import Mathlib

/-!
Rigid-body rotational simulator (`Simulator.cpp` / `Simulator.hpp`)

A shallow embedding of the `Simulator` class: the satellite state, the time
synchroniser (`determine_time_passed`, `update_simulation`, `set_adcs_sleep`),
the step loop (`simulate`), the single integration step (`timestep`) and the
sensor refresh (`update_adcs_devices`).

Conventions of the embedding.

* Floating point (`Eigen::Vector3f`, `Eigen::Matrix3f`) is read in exact
  arithmetic over the rationals.
* `timestamp` is declared in `sim_interface.hpp`, outside these two files; it
  is read as an unbounded signed integer of milliseconds.
* The `for` loop of `simulate` is modelled with fuel: `none` means that the
  fuel ran out before the loop guard became false.
-/

namespace AdcsSim

/-! ## Vectors and matrices (exact arithmetic) -/

/-- A 3-component vector, the exact-arithmetic reading of `Eigen::Vector3f`. -/
structure Vec3 where
  x : ℚ
  y : ℚ
  z : ℚ
deriving DecidableEq

/-- A 3x3 matrix given by its nine coefficients `mij` (row `i`, column `j`),
the exact-arithmetic reading of `Eigen::Matrix3f`. -/
structure Mat3 where
  m00 : ℚ
  m01 : ℚ
  m02 : ℚ
  m10 : ℚ
  m11 : ℚ
  m12 : ℚ
  m20 : ℚ
  m21 : ℚ
  m22 : ℚ
deriving DecidableEq

namespace Vec3

/-- The value of `Eigen::Vector3f::Zero()`. -/
def zero : Vec3 := ⟨0, 0, 0⟩

/-- Component-wise sum (`a + b`, and `a += b`). -/
def add (a b : Vec3) : Vec3 := ⟨a.x + b.x, a.y + b.y, a.z + b.z⟩

/-- Component-wise difference (`a - b`, and `a -= b`). -/
def sub (a b : Vec3) : Vec3 := ⟨a.x - b.x, a.y - b.y, a.z - b.z⟩

/-- Component-wise negation. -/
def neg (a : Vec3) : Vec3 := ⟨-a.x, -a.y, -a.z⟩

/-- Product of a vector with a scalar (`a * k`). -/
def smul (a : Vec3) (k : ℚ) : Vec3 := ⟨a.x * k, a.y * k, a.z * k⟩

/-- The cross product `a.cross(b)`. -/
def cross (a b : Vec3) : Vec3 :=
  ⟨a.y * b.z - a.z * b.y, a.z * b.x - a.x * b.z, a.x * b.y - a.y * b.x⟩

/-- The dot product `a.dot(b)`. -/
def dot (a b : Vec3) : ℚ := a.x * b.x + a.y * b.y + a.z * b.z

end Vec3

namespace Mat3

/-- The identity matrix. -/
def one : Mat3 := ⟨1, 0, 0, 0, 1, 0, 0, 0, 1⟩

/-- Coefficient-wise negation (`-M`). -/
def neg (m : Mat3) : Mat3 :=
  ⟨-m.m00, -m.m01, -m.m02, -m.m10, -m.m11, -m.m12, -m.m20, -m.m21, -m.m22⟩

/-- Matrix-vector product (`M * v`). -/
def mulVec (m : Mat3) (v : Vec3) : Vec3 :=
  ⟨m.m00 * v.x + m.m01 * v.y + m.m02 * v.z,
   m.m10 * v.x + m.m11 * v.y + m.m12 * v.z,
   m.m20 * v.x + m.m21 * v.y + m.m22 * v.z⟩

/-- Matrix-matrix product (`A * B`). -/
def mul (a b : Mat3) : Mat3 :=
  ⟨a.m00 * b.m00 + a.m01 * b.m10 + a.m02 * b.m20,
   a.m00 * b.m01 + a.m01 * b.m11 + a.m02 * b.m21,
   a.m00 * b.m02 + a.m01 * b.m12 + a.m02 * b.m22,
   a.m10 * b.m00 + a.m11 * b.m10 + a.m12 * b.m20,
   a.m10 * b.m01 + a.m11 * b.m11 + a.m12 * b.m21,
   a.m10 * b.m02 + a.m11 * b.m12 + a.m12 * b.m22,
   a.m20 * b.m00 + a.m21 * b.m10 + a.m22 * b.m20,
   a.m20 * b.m01 + a.m21 * b.m11 + a.m22 * b.m21,
   a.m20 * b.m02 + a.m21 * b.m12 + a.m22 * b.m22⟩

/-- Determinant, expanded along the first column. -/
def det (m : Mat3) : ℚ :=
  m.m00 * (m.m11 * m.m22 - m.m12 * m.m21)
    - m.m10 * (m.m01 * m.m22 - m.m02 * m.m21)
    + m.m20 * (m.m01 * m.m12 - m.m02 * m.m11)

/-- The matrix of cofactors, transposed. -/
def adjugate (m : Mat3) : Mat3 :=
  ⟨m.m11 * m.m22 - m.m12 * m.m21,
   m.m02 * m.m21 - m.m01 * m.m22,
   m.m01 * m.m12 - m.m02 * m.m11,
   m.m12 * m.m20 - m.m10 * m.m22,
   m.m00 * m.m22 - m.m02 * m.m20,
   m.m02 * m.m10 - m.m00 * m.m12,
   m.m10 * m.m21 - m.m11 * m.m20,
   m.m01 * m.m20 - m.m00 * m.m21,
   m.m00 * m.m11 - m.m01 * m.m10⟩

/-- Every coefficient multiplied by the scalar `k`. -/
def scale (m : Mat3) (k : ℚ) : Mat3 :=
  ⟨m.m00 * k, m.m01 * k, m.m02 * k, m.m10 * k, m.m11 * k, m.m12 * k,
   m.m20 * k, m.m21 * k, m.m22 * k⟩

/-- The library call `M.inverse()` for a fixed-size 3x3 matrix: the cofactors
scaled by the reciprocal of the determinant. The call has no failure path. For
`det M ≠ 0` this is the inverse of `M` (`Mat3.inverse_mul`, `Mat3.mul_inverse`).
For `det M = 0` the reciprocal is a division by zero: floating point yields
infinities and NaNs there, the rationals yield `0`, so no theorem below draws a
conclusion from the value of `inverse` at a singular matrix. -/
def inverse (m : Mat3) : Mat3 := m.adjugate.scale (1 / m.det)

end Mat3

/-! ## Data model -/

/-- Modelled from the spec: the `timestamp` type is declared in
`sim_interface.hpp`, which is missing from the sources; the spec describes
`simulation_time` as an "integer, milliseconds". It is read as an unbounded
signed integer. -/
abbrev timestamp : Type := Int

/-- The `Satellite` struct of `Simulator.hpp`. -/
structure Satellite where
  theta_b : Vec3
  omega_b : Vec3
  alpha_b : Vec3
  inertia_b : Mat3
deriving DecidableEq

/-- Modelled from the spec: the `Actuator` class is declared in
`sim_interface.hpp`, which is missing from the sources. An actuator is
represented by what `timestep` reads from it: the values returned by
`sim_get_current_velocities()`, `sim_get_current_accelerations()` and
`sim_get_inertia_matrix()` ("current spin velocity (3-vector), current spin
acceleration (3-vector), its own inertia tensor (3×3)"). -/
structure Actuator where
  current_velocities : Vec3
  current_accelerations : Vec3
  inertia_matrix : Mat3
deriving DecidableEq

/-- Modelled from the spec: the `Sensor` class is declared in
`sim_interface.hpp`, which is missing from the sources. A sensor is represented
by the value `sim_get_position()` returns and the value last stored through
`sim_set_current_vals` ("its mounting position relative to the body origin
(3-vector), and accepts a computed derived value ... to store"). -/
structure Sensor where
  position : Vec3
  current_vals : Vec3
deriving DecidableEq

/-- The fields of the `Simulator` class. The two `unordered_map`s are
association lists from device name to device. -/
structure Simulator where
  simulation_time : timestamp
  last_called : timestamp
  timestep_length : timestamp
  satellite : Satellite
  sensors : List (String × Sensor)
  actuators : List (String × Actuator)
  doStats : Bool
deriving DecidableEq

/-! ## Operations -/

/-- The constructor's assignments to the clock fields: `simulation_time = 0`
and `last_called = -1`. The constructor assigns nothing to `timestep_length`
and default-constructs the satellite's vectors and matrix, so these, the device
maps built from the configuration and the `doStats` flag are parameters. -/
def Simulator.construct (timestep_length : timestamp) (satellite : Satellite)
    (sensors : List (String × Sensor)) (actuators : List (String × Actuator))
    (doStats : Bool) : Simulator :=
  { simulation_time := 0
    last_called := -1
    timestep_length := timestep_length
    satellite := satellite
    sensors := sensors
    actuators := actuators
    doStats := doStats }

/-- The accumulator loop at the head of `timestep`: starting from
`Vector3f::Zero()`, each actuator subtracts `inertia_i * alpha_i` and then
`omega_b.cross(inertia_i * omega_i)`. -/
def total_rw_torques (actuators : List (String × Actuator)) (omega_b : Vec3) : Vec3 :=
  actuators.foldl
    (fun acc a =>
      let omega_i := a.2.current_velocities
      let alpha_i := a.2.current_accelerations
      let inertia_i := a.2.inertia_matrix
      (acc.sub (inertia_i.mulVec alpha_i)).sub (omega_b.cross (inertia_i.mulVec omega_i)))
    Vec3.zero

/-- The body of `Simulator::timestep` with the matrix inversion routine as a
parameter `inv`. `total_rw_torques` is computed and then not read again, as in
the source. -/
def timestep_with (inv : Mat3 → Mat3) (sim : Simulator) : Simulator :=
  let _total_rw_torques := total_rw_torques sim.actuators sim.satellite.omega_b
  let inertia_b_inverse := inv sim.satellite.inertia_b
  let alpha_b := inertia_b_inverse.neg.mulVec
    (sim.satellite.omega_b.cross (sim.satellite.inertia_b.mulVec sim.satellite.omega_b))
  let omega_b := sim.satellite.omega_b.add (alpha_b.smul (sim.timestep_length : ℚ))
  let theta_b := sim.satellite.theta_b.add (omega_b.smul (sim.timestep_length : ℚ))
  { sim with
    satellite :=
      { theta_b := theta_b
        omega_b := omega_b
        alpha_b := alpha_b
        inertia_b := sim.satellite.inertia_b } }

/-- `Simulator::timestep`: one integration step, with `inertia_b.inverse()`. -/
def timestep (sim : Simulator) : Simulator := timestep_with Mat3.inverse sim

/-- `Simulator::update_adcs_devices`: every sensor stores `alpha_b.cross(r)`,
`r` its position. -/
def update_adcs_devices (sim : Simulator) : Simulator :=
  { sim with
    sensors := sim.sensors.map fun s =>
      (s.1, { s.2 with current_vals := sim.satellite.alpha_b.cross s.2.position }) }

/-- The guard of the `for` loop of `simulate`:
`simulation_time <= simulation_time + t`, both sides read from the current
state. -/
def loop_guard (sim : Simulator) (t : timestamp) : Bool :=
  decide (sim.simulation_time ≤ sim.simulation_time + t)

/-- One iteration of the `for` loop of `simulate`: the body `timestep()`
followed by the increment `simulation_time += timestep_length`. -/
def loop_iteration (sim : Simulator) : Simulator :=
  let sim1 := timestep sim
  { sim1 with simulation_time := sim1.simulation_time + sim1.timestep_length }

/-- `Simulator::simulate`. Each unit of fuel pays for one evaluation of the
loop guard; `none` means the fuel ran out with the guard still true. When the
guard is false the loop is left and `update_adcs_devices()` runs. -/
def simulate : Nat → Simulator → timestamp → Option Simulator
  | 0, _, _ => none
  | fuel + 1, sim, t =>
    if loop_guard sim t then simulate fuel (loop_iteration sim) t
    else some (update_adcs_devices sim)

/-- The state after `n` iterations of the loop of `simulate`, that is after `n`
calls of `timestep()`. -/
def loop_state : Nat → Simulator → Simulator
  | 0, sim => sim
  | n + 1, sim => loop_state n (loop_iteration sim)

/-- The conversion `uint32_t ms = ...count()` of `determine_time_passed`: the
millisecond count of the wall clock reduced modulo `2^32`. -/
def clock_ms_u32 (clock_count : Int) : Int := clock_count % 2 ^ 32

/-- `Simulator::determine_time_passed`, with the millisecond count of
`system_clock::now().time_since_epoch()` as the input `clock_count`. Returns
`time_passed` and the simulator with `last_called` updated. -/
def determine_time_passed (clock_count : Int) (sim : Simulator) : timestamp × Simulator :=
  let ms := clock_ms_u32 clock_count
  let now : timestamp := ms
  let time_passed := now - sim.last_called
  (time_passed, { sim with last_called := now })

/-- The outcome of a call of `update_simulation` or `set_adcs_sleep` that came
back: the value given by a `return` statement (`none` when control reaches the
closing brace without one) and the simulator afterwards. -/
structure CallResult where
  returned : Option timestamp
  sim : Simulator
deriving DecidableEq

/-- `Simulator::update_simulation`. The body ends after `simulate(time_passed)`
without a `return` statement. `none` means the fuel of `simulate` ran out. -/
def update_simulation (fuel : Nat) (clock_count : Int) (sim : Simulator) :
    Option CallResult :=
  let (time_passed, sim1) := determine_time_passed clock_count sim
  (simulate fuel sim1 time_passed).map fun sim2 => { returned := none, sim := sim2 }

/-- `Simulator::set_adcs_sleep`. The body ends after
`simulate(time_passed + duration)` without a `return` statement. -/
def set_adcs_sleep (fuel : Nat) (clock_count : Int) (duration : timestamp)
    (sim : Simulator) : Option CallResult :=
  let (time_passed, sim1) := determine_time_passed clock_count sim
  (simulate fuel sim1 (time_passed + duration)).map fun sim2 =>
    { returned := none, sim := sim2 }

/-! ## Concrete inputs -/

/-- A body with a diagonal inertia tensor `diag(1, 2, 3)` spinning about a
non-principal axis. -/
def spinning_satellite : Satellite :=
  { theta_b := ⟨0, 0, 0⟩
    omega_b := ⟨1, 2, 3⟩
    alpha_b := ⟨0, 0, 0⟩
    inertia_b := ⟨1, 0, 0, 0, 2, 0, 0, 0, 3⟩ }

/-- A simulator with `timestep_length = 10`, no devices, `simulation_time = 0`
and `last_called = 1000`. -/
def spinning_sim : Simulator :=
  { simulation_time := 0
    last_called := 1000
    timestep_length := 10
    satellite := spinning_satellite
    sensors := []
    actuators := []
    doStats := true }

/-- A reaction wheel with identity inertia, at rest, accelerating about the
x axis. -/
def accelerating_wheel : Actuator :=
  { current_velocities := ⟨0, 0, 0⟩
    current_accelerations := ⟨1, 0, 0⟩
    inertia_matrix := Mat3.one }

/-- A body at rest with identity inertia carrying `accelerating_wheel`, with
`timestep_length = 1`. -/
def wheel_sim : Simulator :=
  { simulation_time := 0
    last_called := 0
    timestep_length := 1
    satellite :=
      { theta_b := ⟨0, 0, 0⟩
        omega_b := ⟨0, 0, 0⟩
        alpha_b := ⟨0, 0, 0⟩
        inertia_b := Mat3.one }
    sensors := []
    actuators := [("wheel", accelerating_wheel)]
    doStats := true }

/-- Spec-side definition for the comparison with `timestep`: the angular
acceleration as the specification words it,
`inertia_b⁻¹ * (tau_total - omega_b × (inertia_b * omega_b))`, with `tau_total`
the accumulated actuator torque. -/
def alpha_b_spec (sim : Simulator) : Vec3 :=
  sim.satellite.inertia_b.inverse.mulVec
    ((total_rw_torques sim.actuators sim.satellite.omega_b).sub
      (sim.satellite.omega_b.cross (sim.satellite.inertia_b.mulVec sim.satellite.omega_b)))

/-! ## Call sequences and the error channel -/

/-- A call of `set_adcs_sleep(duration)` at clock reading `clock1` followed by
a call of `update_simulation()` at clock reading `clock2`; the second call
starts when the first has come back. -/
def sleep_then_update (fuel : Nat) (clock1 : Int) (duration : timestamp) (clock2 : Int)
    (sim : Simulator) : Option CallResult :=
  (set_adcs_sleep fuel clock1 duration sim).bind fun r => update_simulation fuel clock2 r.sim

/-- The call `timestep()` seen with an error channel. The body of `timestep`
has no `throw`, and neither the vector arithmetic nor the inversion routine
`inv` raises, so every call comes back with a state. -/
def timestep_call (inv : Mat3 → Mat3) (sim : Simulator) : Except String Simulator :=
  Except.ok (timestep_with inv sim)

/-- A simulator whose inertia tensor `diag(1, 1, 0)` has determinant 0. -/
def singular_sim : Simulator :=
  { spinning_sim with
    satellite := { spinning_satellite with inertia_b := ⟨1, 0, 0, 0, 1, 0, 0, 0, 0⟩ } }

/-! ## Device registry -/

/-- Lookup by key in a registry (`find` on the `unordered_map`): the device
stored under `name`, if there is one. -/
def registry_find {α : Type} (m : List (String × α)) (name : String) : Option α :=
  match m with
  | [] => none
  | (k, v) :: rest => if k = name then some v else registry_find rest name

/-- The assignment `m[name] = device` on the `unordered_map`: an entry stored
under `name` has its device replaced, otherwise a new entry is added. -/
def registry_assign {α : Type} (m : List (String × α)) (name : String) (device : α) :
    List (String × α) :=
  match m with
  | [] => [(name, device)]
  | (k, v) :: rest =>
    if k = name then (name, device) :: rest else (k, v) :: registry_assign rest name device

/-- `Simulator::create_sensor`. `SensorActuatorFactory::GetSensor` is declared
in `SensorActuatorFactory.hpp`, outside these two files, and is the parameter
`GetSensor`; `none` is the null pointer it returns for a name it does not
know. -/
def create_sensor (GetSensor : String → Option Sensor) (name : String)
    (sim : Simulator) : Simulator :=
  if name = "" then sim
  else
    match GetSensor name with
    | none => sim
    | some sensorPtr => { sim with sensors := registry_assign sim.sensors name sensorPtr }

/-- `Simulator::create_actuator`, with `SensorActuatorFactory::GetActuator` as
the parameter `GetActuator`. -/
def create_actuator (GetActuator : String → Option Actuator) (name : String)
    (sim : Simulator) : Simulator :=
  if name = "" then sim
  else
    match GetActuator name with
    | none => sim
    | some actPtr => { sim with actuators := registry_assign sim.actuators name actPtr }

/-! ## Reachable states and further inputs -/

/-- A gyroscope mounted at `(1, 0, 0)` with no value stored yet. -/
def gyro : Sensor := { position := ⟨1, 0, 0⟩, current_vals := ⟨0, 0, 0⟩ }

/-- A device catalogue that knows the sensor name `gyro` only. -/
def gyro_catalogue (name : String) : Option Sensor :=
  if name = "gyro" then some gyro else none

/-- A device catalogue that knows the actuator name `wheel` only. -/
def wheel_catalogue (name : String) : Option Actuator :=
  if name = "wheel" then some accelerating_wheel else none

/-- The simulator `spinning_sim` with angular acceleration `(0, 0, 2)` and two
sensors, mounted at `(1, 0, 0)` and `(0, 1, 0)`. -/
def sensor_sim : Simulator :=
  { spinning_sim with
    satellite := { spinning_satellite with alpha_b := ⟨0, 0, 2⟩ }
    sensors := [("gyro", gyro), ("accel", { position := ⟨0, 1, 0⟩, current_vals := ⟨5, 5, 5⟩ })] }

/-! ## Lemmas on matrices -/

theorem Mat3.inverse_mul (m : Mat3) (h : m.det ≠ 0) : m.inverse.mul m = Mat3.one := by
  have h' : m.m00 * (m.m11 * m.m22 - m.m12 * m.m21)
      - m.m10 * (m.m01 * m.m22 - m.m02 * m.m21)
      + m.m20 * (m.m01 * m.m12 - m.m02 * m.m11) ≠ 0 := h
  simp only [Mat3.inverse, Mat3.mul, Mat3.scale, Mat3.adjugate, Mat3.det, Mat3.one,
    Mat3.mk.injEq]
  refine ⟨?_, ?_, ?_, ?_, ?_, ?_, ?_, ?_, ?_⟩ <;> field_simp <;> ring

theorem Mat3.mul_inverse (m : Mat3) (h : m.det ≠ 0) : m.mul m.inverse = Mat3.one := by
  have h' : m.m00 * (m.m11 * m.m22 - m.m12 * m.m21)
      - m.m10 * (m.m01 * m.m22 - m.m02 * m.m21)
      + m.m20 * (m.m01 * m.m12 - m.m02 * m.m11) ≠ 0 := h
  simp only [Mat3.inverse, Mat3.mul, Mat3.scale, Mat3.adjugate, Mat3.det, Mat3.one,
    Mat3.mk.injEq]
  refine ⟨?_, ?_, ?_, ?_, ?_, ?_, ?_, ?_, ?_⟩ <;> field_simp <;> ring

/-! ## Lemmas on the step loop -/

/-- The guard of the loop compares `simulation_time` with itself plus `t`, so
it only tests the sign of `t`. -/
theorem loop_guard_eq (sim : Simulator) (t : timestamp) :
    loop_guard sim t = decide (0 ≤ t) := by
  unfold loop_guard
  congr 1
  exact propext (le_add_iff_nonneg_right _)

theorem simulate_of_nonneg (t : timestamp) (ht : 0 ≤ t) :
    ∀ (fuel : Nat) (sim : Simulator), simulate fuel sim t = none := by
  intro fuel
  induction fuel with
  | zero => intro sim; rfl
  | succ n ih =>
    intro sim
    have hg : loop_guard sim t = true := by rw [loop_guard_eq]; exact decide_eq_true ht
    simp [simulate, hg, ih]

theorem simulate_of_neg (t : timestamp) (ht : t < 0) (fuel : Nat) (sim : Simulator) :
    simulate (fuel + 1) sim t = some (update_adcs_devices sim) := by
  have hg : loop_guard sim t = false := by
    rw [loop_guard_eq]; exact decide_eq_false (not_le.mpr ht)
  simp [simulate, hg]

theorem loop_iteration_simulation_time (sim : Simulator) :
    (loop_iteration sim).simulation_time = sim.simulation_time + sim.timestep_length := rfl

theorem loop_iteration_timestep_length (sim : Simulator) :
    (loop_iteration sim).timestep_length = sim.timestep_length := rfl

theorem loop_state_timestep_length (n : Nat) :
    ∀ sim : Simulator, (loop_state n sim).timestep_length = sim.timestep_length := by
  induction n with
  | zero => intro sim; rfl
  | succ n ih => intro sim; rw [loop_state, ih, loop_iteration_timestep_length]

theorem loop_state_simulation_time (n : Nat) :
    ∀ sim : Simulator,
      (loop_state n sim).simulation_time = sim.simulation_time + n * sim.timestep_length := by
  induction n with
  | zero => intro sim; simp [loop_state]
  | succ n ih =>
    intro sim
    rw [loop_state, ih, loop_iteration_simulation_time, loop_iteration_timestep_length]
    push_cast
    ring

theorem clock_ms_u32_nonneg (clock_count : Int) : 0 ≤ clock_ms_u32 clock_count :=
  Int.emod_nonneg _ (by norm_num)

theorem clock_ms_u32_lt (clock_count : Int) : clock_ms_u32 clock_count < 2 ^ 32 :=
  Int.emod_lt_of_pos _ (by norm_num)


/-! ## Lemmas on the registry -/

theorem registry_find_assign_self {α : Type} (m : List (String × α)) (name : String)
    (device : α) : registry_find (registry_assign m name device) name = some device := by
  induction m with
  | nil => simp [registry_assign, registry_find]
  | cons e rest ih =>
    obtain ⟨k, v⟩ := e
    by_cases hk : k = name
    · simp [registry_assign, registry_find, hk]
    · simp [registry_assign, registry_find, hk, ih]

theorem registry_find_assign_ne {α : Type} (m : List (String × α)) (name other : String)
    (device : α) (h : other ≠ name) :
    registry_find (registry_assign m name device) other = registry_find m other := by
  induction m with
  | nil => simp [registry_assign, registry_find, Ne.symm h]
  | cons e rest ih =>
    obtain ⟨k, v⟩ := e
    by_cases hk : k = name
    · subst hk
      simp [registry_assign, registry_find, Ne.symm h]
    · by_cases hk2 : k = other
      · subst hk2
        simp [registry_assign, registry_find, hk]
      · simp [registry_assign, registry_find, hk, hk2, ih]

theorem registry_assign_length_absent {α : Type} (m : List (String × α)) (name : String)
    (device : α) (h : registry_find m name = none) :
    (registry_assign m name device).length = m.length + 1 := by
  induction m with
  | nil => simp [registry_assign]
  | cons e rest ih =>
    obtain ⟨k, v⟩ := e
    by_cases hk : k = name
    · simp [registry_find, hk] at h
    · simp only [registry_find, hk, if_false] at h
      simp [registry_assign, hk, ih h]

theorem registry_assign_length_present {α : Type} (m : List (String × α)) (name : String)
    (device old : α) (h : registry_find m name = some old) :
    (registry_assign m name device).length = m.length := by
  induction m with
  | nil => simp [registry_find] at h
  | cons e rest ih =>
    obtain ⟨k, v⟩ := e
    by_cases hk : k = name
    · simp [registry_assign, hk]
    · simp only [registry_find, hk, if_false] at h
      simp [registry_assign, hk, ih h]

theorem registry_assign_keys_mem {α : Type} (m : List (String × α)) (name other : String)
    (device : α) :
    other ∈ (registry_assign m name device).map Prod.fst
      ↔ other = name ∨ other ∈ m.map Prod.fst := by
  induction m with
  | nil => simp [registry_assign]
  | cons e rest ih =>
    obtain ⟨k, v⟩ := e
    by_cases hk : k = name
    · subst hk
      simp [registry_assign]
    · simp only [registry_assign, hk, if_false, List.map_cons, List.mem_cons, ih]
      tauto

theorem registry_assign_keys_nodup {α : Type} (m : List (String × α)) (name : String)
    (device : α) (h : (m.map Prod.fst).Nodup) :
    ((registry_assign m name device).map Prod.fst).Nodup := by
  induction m with
  | nil => simp [registry_assign]
  | cons e rest ih =>
    obtain ⟨k, v⟩ := e
    simp only [List.map_cons, List.nodup_cons] at h
    by_cases hk : k = name
    · subst hk
      simpa [registry_assign] using h
    · simp only [registry_assign, hk, if_false, List.map_cons, List.nodup_cons]
      refine ⟨?_, ih h.2⟩
      rw [registry_assign_keys_mem]
      rintro (h1 | h1)
      · exact hk h1
      · exact h.1 h1

/-! ## Lemmas on the integration step -/

theorem Vec3.dot_cross_self (a b : Vec3) : a.dot (a.cross b) = 0 := by
  simp only [Vec3.dot, Vec3.cross]
  ring

theorem Mat3.mulVec_zero (m : Mat3) : m.mulVec Vec3.zero = Vec3.zero := by
  simp [Mat3.mulVec, Vec3.zero]

/-- For an invertible matrix, `M * ((-M⁻¹) * v) = -v`. -/
theorem Mat3.mulVec_neg_inverse (m : Mat3) (v : Vec3) (h : m.det ≠ 0) :
    m.mulVec (m.inverse.neg.mulVec v) = v.neg := by
  have h' : m.m00 * (m.m11 * m.m22 - m.m12 * m.m21)
      - m.m10 * (m.m01 * m.m22 - m.m02 * m.m21)
      + m.m20 * (m.m01 * m.m12 - m.m02 * m.m11) ≠ 0 := h
  simp only [Mat3.inverse, Mat3.mulVec, Mat3.neg, Mat3.scale, Mat3.adjugate, Mat3.det,
    Vec3.neg, Vec3.mk.injEq]
  refine ⟨?_, ?_, ?_⟩ <;> field_simp <;> ring

/-- A step from a state with `omega_b × (inertia_b * omega_b) = 0` computes a
zero acceleration and keeps `omega_b`. -/
theorem timestep_with_of_cross_zero (inv : Mat3 → Mat3) (sim : Simulator)
    (h : sim.satellite.omega_b.cross (sim.satellite.inertia_b.mulVec sim.satellite.omega_b)
      = Vec3.zero) :
    (timestep_with inv sim).satellite.alpha_b = Vec3.zero
      ∧ (timestep_with inv sim).satellite.omega_b = sim.satellite.omega_b := by
  have ha : (timestep_with inv sim).satellite.alpha_b = Vec3.zero := by
    show (inv sim.satellite.inertia_b).neg.mulVec _ = Vec3.zero
    rw [h, Mat3.mulVec_zero]
  refine ⟨ha, ?_⟩
  show sim.satellite.omega_b.add
    ((timestep_with inv sim).satellite.alpha_b.smul (sim.timestep_length : ℚ)) = _
  rw [ha]
  simp [Vec3.add, Vec3.smul, Vec3.zero]

theorem update_adcs_devices_simulation_time (sim : Simulator) :
    (update_adcs_devices sim).simulation_time = sim.simulation_time := rfl

/-- C1 (evaluation at `timestep_length = 10`, `t = 95`): the claim has
`simulate(95)` come back after exactly `ceil(95 / 10) = 10` calls of
`timestep()`. In the code the loop never ends: `simulate` runs out of any
amount of fuel, after the 10th call the guard is still true, and an 11th
iteration takes `simulation_time` to its prior value plus 110. -/
theorem simulate_95_step_10_never_returns (sim : Simulator) (fuel : Nat) :
    simulate fuel { sim with timestep_length := 10 } 95 = none
      ∧ loop_guard (loop_state 10 { sim with timestep_length := 10 }) 95 = true
      ∧ (loop_state 11 { sim with timestep_length := 10 }).simulation_time
          = sim.simulation_time + 110 := by
  refine ⟨simulate_of_nonneg 95 (by decide) fuel _, ?_, ?_⟩
  · rw [loop_guard_eq]; rfl
  · rw [loop_state_simulation_time]; norm_num

/-- C2 (evaluation at `wheel_sim`): the claim has the actuator torque enter the
angular acceleration, which at `wheel_sim` gives `alpha_b = (-1, 0, 0)`. The
code accumulates the torque `(-1, 0, 0)` and then computes `alpha_b` without
it: `alpha_b = (0, 0, 0)`. For every state the satellite after `timestep()` is
the same whatever the actuators are. -/
theorem timestep_drops_actuator_torque :
    total_rw_torques wheel_sim.actuators wheel_sim.satellite.omega_b = ⟨-1, 0, 0⟩
      ∧ alpha_b_spec wheel_sim = ⟨-1, 0, 0⟩
      ∧ (timestep wheel_sim).satellite.alpha_b = ⟨0, 0, 0⟩
      ∧ ∀ (sim : Simulator) (acts : List (String × Actuator)),
          (timestep { sim with actuators := acts }).satellite = (timestep sim).satellite := by
  refine ⟨?_, ?_, ?_, fun _ _ => rfl⟩
  · simp [total_rw_torques, wheel_sim, accelerating_wheel, Mat3.one, Mat3.mulVec,
      Vec3.cross, Vec3.sub, Vec3.zero]
  · simp [alpha_b_spec, total_rw_torques, wheel_sim, accelerating_wheel, Mat3.one,
      Mat3.mulVec, Vec3.cross, Vec3.sub, Vec3.zero, Mat3.inverse, Mat3.adjugate,
      Mat3.scale, Mat3.det]
  · simp [timestep, timestep_with, wheel_sim, Mat3.one, Mat3.mulVec, Vec3.cross,
      Mat3.inverse, Mat3.adjugate, Mat3.scale, Mat3.det, Mat3.neg]

/-- C3: one call of `timestep()` computes `alpha_b'` from the state before the
step (the previous `alpha_b` is not read), then sets
`omega_b' = omega_b + alpha_b' * dt` and `theta_b' = theta_b + omega_b' * dt`
with the already updated `omega_b'`, and leaves `inertia_b` unchanged. -/
theorem timestep_forward_euler (sim : Simulator) :
    (timestep sim).satellite.alpha_b
        = sim.satellite.inertia_b.inverse.neg.mulVec
            (sim.satellite.omega_b.cross
              (sim.satellite.inertia_b.mulVec sim.satellite.omega_b))
      ∧ (timestep sim).satellite.omega_b
        = sim.satellite.omega_b.add
            ((timestep sim).satellite.alpha_b.smul (sim.timestep_length : ℚ))
      ∧ (timestep sim).satellite.theta_b
        = sim.satellite.theta_b.add
            ((timestep sim).satellite.omega_b.smul (sim.timestep_length : ℚ))
      ∧ (timestep sim).satellite.inertia_b = sim.satellite.inertia_b :=
  ⟨rfl, rfl, rfl, rfl⟩

/-- C5 (evaluation at zero elapsed time): the claim has `update_simulation()`
leave `simulation_time` and the satellite unchanged when the clock reading
equals `last_called`. In the code the call hands `t = 0` to `simulate`, whose
guard is then true for ever: the call runs out of any amount of fuel, the first
iteration already advances `simulation_time` by `timestep_length`, and at
`spinning_sim` it changes `omega_b`. -/
theorem update_simulation_zero_elapsed_steps (sim : Simulator) (clock_count : Int)
    (fuel : Nat) :
    (determine_time_passed clock_count
        { sim with last_called := clock_ms_u32 clock_count }).1 = 0
      ∧ update_simulation fuel clock_count
          { sim with last_called := clock_ms_u32 clock_count } = none
      ∧ (loop_state 1 { sim with last_called := clock_ms_u32 clock_count }).simulation_time
          = sim.simulation_time + sim.timestep_length
      ∧ spinning_sim.last_called = clock_ms_u32 1000
      ∧ (loop_state 1 spinning_sim).simulation_time = 10
      ∧ (loop_state 1 spinning_sim).satellite.omega_b = ⟨-59, 32, -11 / 3⟩ := by
  refine ⟨?_, ?_, rfl, by decide, by decide, ?_⟩
  · simp [determine_time_passed]
  · have h := simulate_of_nonneg 0 (le_refl _) fuel
      { sim with last_called := clock_ms_u32 clock_count }
    simp [update_simulation, determine_time_passed, h]
  · simp [loop_state, loop_iteration, timestep, timestep_with, spinning_sim,
      spinning_satellite, Mat3.inverse, Mat3.adjugate, Mat3.scale, Mat3.det, Mat3.neg,
      Mat3.mulVec, Vec3.cross, Vec3.add, Vec3.smul]
    norm_num

/-- C6 (evaluation at non-negative elapsed times and duration): the claim
compares the state left by `set_adcs_sleep(d)` followed by
`update_simulation()` with the state left by one `update_simulation()`. In the
code none of these calls comes back: with elapsed time `e1 >= 0` and `d >= 0`
the first call is handed `t = e1 + d >= 0` and runs out of any amount of fuel,
so the sequence leaves no state, and so does the single call handed
`e1 + d + e2`. At `spinning_sim` (`last_called = 1000`): `d = 5` at clock 1005,
then clock 1010, against a single call at clock 1015. -/
theorem sleep_then_update_never_returns (sim : Simulator) (clock1 clock2 : Int)
    (e1 d e2 : Nat) (fuel : Nat) :
    set_adcs_sleep fuel clock1 d { sim with last_called := clock_ms_u32 clock1 - e1 } = none
      ∧ sleep_then_update fuel clock1 d clock2
          { sim with last_called := clock_ms_u32 clock1 - e1 } = none
      ∧ update_simulation fuel clock2
          { sim with last_called := clock_ms_u32 clock2 - (e1 + d + e2) } = none
      ∧ sleep_then_update fuel 1005 5 1010 spinning_sim = none
      ∧ update_simulation fuel 1015 spinning_sim = none := by
  have h1 : set_adcs_sleep fuel clock1 d
      { sim with last_called := clock_ms_u32 clock1 - e1 } = none := by
    have ht : (0 : Int) ≤ clock_ms_u32 clock1 - (clock_ms_u32 clock1 - (e1 : Int)) + (d : Int) := by
      have := Int.ofNat_nonneg e1
      have := Int.ofNat_nonneg d
      omega
    simp only [set_adcs_sleep, determine_time_passed]
    rw [simulate_of_nonneg _ ht]
    rfl
  have h2 : set_adcs_sleep fuel 1005 5 spinning_sim = none := by
    have ht : (0 : Int) ≤ clock_ms_u32 1005 - spinning_sim.last_called + 5 := by decide
    simp [set_adcs_sleep, determine_time_passed, simulate_of_nonneg _ ht]
  refine ⟨h1, ?_, ?_, ?_, ?_⟩
  · simp [sleep_then_update, h1]
  · have ht : (0 : Int)
        ≤ clock_ms_u32 clock2 - (clock_ms_u32 clock2 - ((e1 : Int) + d + e2)) := by
      have := Int.ofNat_nonneg e1
      have := Int.ofNat_nonneg d
      have := Int.ofNat_nonneg e2
      omega
    simp only [update_simulation, determine_time_passed]
    rw [simulate_of_nonneg _ ht]
    rfl
  · simp [sleep_then_update, h2]
  · have ht : (0 : Int) ≤ clock_ms_u32 1015 - spinning_sim.last_called := by decide
    simp [update_simulation, determine_time_passed, simulate_of_nonneg _ ht]

/-- C7 (evaluation at clock reading 50, `last_called = 1000`): the claim has
both calls return the `simulation_time` at the end of the call, here 0. In the
code both bodies end without a `return` statement: the calls come back with no
returned value, here and in every other call. -/
theorem calls_return_no_value :
    update_simulation 1 50 spinning_sim
        = some { returned := none,
                 sim := update_adcs_devices { spinning_sim with last_called := 50 } }
      ∧ set_adcs_sleep 1 50 10 spinning_sim
        = some { returned := none,
                 sim := update_adcs_devices { spinning_sim with last_called := 50 } }
      ∧ (update_adcs_devices { spinning_sim with last_called := 50 }).simulation_time = 0
      ∧ ∀ (fuel : Nat) (clock_count : Int) (duration : timestamp) (sim : Simulator),
          (update_simulation fuel clock_count sim).bind CallResult.returned = none
            ∧ (set_adcs_sleep fuel clock_count duration sim).bind CallResult.returned
                = none := by
  refine ⟨rfl, rfl, rfl, ?_⟩
  intro fuel clock_count duration sim
  constructor
  · simp only [update_simulation, determine_time_passed]
    generalize simulate fuel _ _ = res
    cases res <;> rfl
  · simp only [set_adcs_sleep, determine_time_passed]
    generalize simulate fuel _ _ = res
    cases res <;> rfl

/-- C8 (counterexample): at clock reading 50 with `last_called = 1000` the
clock is behind `last_called` and `determine_time_passed()` returns `-950`,
which is negative and not 0. -/
theorem determine_time_passed_negative_at_skew :
    clock_ms_u32 50 < spinning_sim.last_called
      ∧ (determine_time_passed 50 spinning_sim).1 = -950
      ∧ (determine_time_passed 50 spinning_sim).1 < 0 := by
  decide

/-- C8 (amended): `determine_time_passed()` returns `now - last_called`
unclamped, which is negative exactly when `now < last_called`. When the value
handed to `simulate` is negative (`now - last_called` for
`update_simulation()`, `(now - last_called) + duration` for
`set_adcs_sleep(duration)`), the call comes back after no `timestep()` at all,
with `simulation_time` and the satellite as they were. -/
theorem determine_time_passed_unclamped (fuel : Nat) (clock_count : Int)
    (duration : timestamp) (sim : Simulator) :
    (determine_time_passed clock_count sim).1 = clock_ms_u32 clock_count - sim.last_called
      ∧ ((determine_time_passed clock_count sim).1 < 0
          ↔ clock_ms_u32 clock_count < sim.last_called)
      ∧ (clock_ms_u32 clock_count < sim.last_called →
          update_simulation (fuel + 1) clock_count sim
            = some { returned := none,
                     sim := update_adcs_devices
                       { sim with last_called := clock_ms_u32 clock_count } })
      ∧ (clock_ms_u32 clock_count - sim.last_called + duration < 0 →
          set_adcs_sleep (fuel + 1) clock_count duration sim
            = some { returned := none,
                     sim := update_adcs_devices
                       { sim with last_called := clock_ms_u32 clock_count } })
      ∧ (update_adcs_devices
            { sim with last_called := clock_ms_u32 clock_count }).simulation_time
          = sim.simulation_time
      ∧ (update_adcs_devices
            { sim with last_called := clock_ms_u32 clock_count }).satellite
          = sim.satellite := by
  refine ⟨rfl, ?_, ?_, ?_, rfl, rfl⟩
  · show clock_ms_u32 clock_count - sim.last_called < 0 ↔ _
    exact sub_neg
  · intro h
    have ht : clock_ms_u32 clock_count - sim.last_called < 0 := sub_neg.mpr h
    simp [update_simulation, determine_time_passed, simulate_of_neg _ ht]
  · intro h
    simp [set_adcs_sleep, determine_time_passed, simulate_of_neg _ h]

/-- Witness of C8 (amended): clock reading 50, `last_called = 1000`,
`duration = 10`. -/
theorem determine_time_passed_unclamped_witness :
    clock_ms_u32 50 < spinning_sim.last_called
      ∧ clock_ms_u32 50 - spinning_sim.last_called + 10 < 0
      ∧ update_simulation 1 50 spinning_sim
          = some { returned := none,
                   sim := update_adcs_devices
                     { spinning_sim with last_called := clock_ms_u32 50 } }
      ∧ set_adcs_sleep 1 50 10 spinning_sim
          = some { returned := none,
                   sim := update_adcs_devices
                     { spinning_sim with last_called := clock_ms_u32 50 } } :=
  ⟨by decide, by decide,
   (determine_time_passed_unclamped 0 50 10 spinning_sim).2.2.1 (by decide),
   (determine_time_passed_unclamped 0 50 10 spinning_sim).2.2.2.1 (by decide)⟩

/-- C9 (counterexample): on the first call after construction the elapsed value
is 1001 at clock reading 1000 and 2001 at clock reading 2000: it is not the
same for two clock readings. -/
theorem first_call_elapsed_depends_on_clock :
    (determine_time_passed 1000
        (Simulator.construct 10 spinning_satellite [] [] true)).1 = 1001
      ∧ (determine_time_passed 2000
          (Simulator.construct 10 spinning_satellite [] [] true)).1 = 2001 := by
  decide

/-- C9 (amended): on the first call after construction (`last_called = -1`)
`determine_time_passed()` returns `now + 1`, with `now` the millisecond count
of the wall clock reduced modulo `2^32`; the value follows the clock reading
and lies between 1 and `2^32`. -/
theorem first_call_elapsed_eq (timestep_length : timestamp) (satellite : Satellite)
    (sensors : List (String × Sensor)) (actuators : List (String × Actuator))
    (doStats : Bool) (clock_count : Int) :
    (determine_time_passed clock_count
        (Simulator.construct timestep_length satellite sensors actuators doStats)).1
        = clock_ms_u32 clock_count + 1
      ∧ 1 ≤ (determine_time_passed clock_count
          (Simulator.construct timestep_length satellite sensors actuators doStats)).1
      ∧ (determine_time_passed clock_count
          (Simulator.construct timestep_length satellite sensors actuators doStats)).1
          ≤ 2 ^ 32 := by
  have h : (determine_time_passed clock_count
      (Simulator.construct timestep_length satellite sensors actuators doStats)).1
      = clock_ms_u32 clock_count + 1 := by
    simp [determine_time_passed, Simulator.construct]
  have h0 := clock_ms_u32_nonneg clock_count
  have h1 := clock_ms_u32_lt clock_count
  refine ⟨h, ?_, ?_⟩ <;> rw [h] <;> linarith

/-- C10 (counterexample): `singular_sim` has an inertia tensor of determinant
0, and `timestep()` comes back with a state; it does not fail. -/
theorem timestep_returns_at_singular_inertia :
    singular_sim.satellite.inertia_b.det = 0
      ∧ timestep_call Mat3.inverse singular_sim = Except.ok (timestep singular_sim)
      ∧ ∀ e : String, timestep_call Mat3.inverse singular_sim ≠ Except.error e := by
  refine ⟨?_, rfl, ?_⟩
  · simp [singular_sim, Mat3.det]
  · intro e h
    cases h

/-- C10 (amended): `timestep()` has no failure path. For every state, also one
whose `inertia_b` has determinant 0, and whatever the inversion routine yields
there, the call comes back with `alpha_b` computed from that result,
`omega_b' = omega_b + alpha_b' * dt`, `theta_b' = theta_b + omega_b' * dt` and
`inertia_b` unchanged. -/
theorem timestep_has_no_failure_path (inv : Mat3 → Mat3) (sim : Simulator) :
    timestep_call inv sim = Except.ok (timestep_with inv sim)
      ∧ (timestep_with inv sim).satellite.alpha_b
        = (inv sim.satellite.inertia_b).neg.mulVec
            (sim.satellite.omega_b.cross
              (sim.satellite.inertia_b.mulVec sim.satellite.omega_b))
      ∧ (timestep_with inv sim).satellite.omega_b
        = sim.satellite.omega_b.add
            ((timestep_with inv sim).satellite.alpha_b.smul (sim.timestep_length : ℚ))
      ∧ (timestep_with inv sim).satellite.theta_b
        = sim.satellite.theta_b.add
            ((timestep_with inv sim).satellite.omega_b.smul (sim.timestep_length : ℚ))
      ∧ (timestep_with inv sim).satellite.inertia_b = sim.satellite.inertia_b :=
  ⟨rfl, rfl, rfl, rfl, rfl⟩

/-- C11: `create_sensor(name)` and `create_actuator(name)` called with the
empty name, or with a name for which the factory returns no device, come back
with the simulator exactly as it was, so both registries are unchanged. -/
theorem create_device_unresolved_is_noop (GetSensor : String → Option Sensor)
    (GetActuator : String → Option Actuator) (name : String) (sim : Simulator) :
    ((name = "" ∨ GetSensor name = none) → create_sensor GetSensor name sim = sim)
      ∧ ((name = "" ∨ GetActuator name = none) →
          create_actuator GetActuator name sim = sim) := by
  constructor
  · rintro (h | h)
    · simp [create_sensor, h]
    · simp [create_sensor, h]
  · rintro (h | h)
    · simp [create_actuator, h]
    · simp [create_actuator, h]

/-- Witness of C11: the empty name and the unknown name `magnetometer` on
`sensor_sim`, whose registry holds two sensors. -/
theorem create_device_unresolved_is_noop_witness :
    create_sensor gyro_catalogue "" sensor_sim = sensor_sim
      ∧ create_actuator wheel_catalogue "magnetometer" sensor_sim = sensor_sim :=
  ⟨(create_device_unresolved_is_noop gyro_catalogue wheel_catalogue "" sensor_sim).1
      (Or.inl rfl),
   (create_device_unresolved_is_noop gyro_catalogue wheel_catalogue "magnetometer"
      sensor_sim).2 (Or.inr (by decide))⟩

/-- C12: for a non-empty name that the factory resolves to `sensor`, after
`create_sensor(name)` the sensor registry maps `name` to `sensor`, every other
key maps to what it held before, the size grows by one if `name` was absent and
is unchanged if it was registered, keys stay distinct, and the actuator
registry is unchanged; the same for `create_actuator` with the registries
exchanged. -/
theorem create_device_registers (GetSensor : String → Option Sensor)
    (GetActuator : String → Option Actuator) (name : String) (sim : Simulator)
    (hname : name ≠ "") :
    (∀ sensor : Sensor, GetSensor name = some sensor →
      registry_find (create_sensor GetSensor name sim).sensors name = some sensor
        ∧ (∀ other : String, other ≠ name →
            registry_find (create_sensor GetSensor name sim).sensors other
              = registry_find sim.sensors other)
        ∧ (registry_find sim.sensors name = none →
            (create_sensor GetSensor name sim).sensors.length = sim.sensors.length + 1)
        ∧ (∀ old : Sensor, registry_find sim.sensors name = some old →
            (create_sensor GetSensor name sim).sensors.length = sim.sensors.length)
        ∧ ((sim.sensors.map Prod.fst).Nodup →
            ((create_sensor GetSensor name sim).sensors.map Prod.fst).Nodup)
        ∧ (create_sensor GetSensor name sim).actuators = sim.actuators)
    ∧ (∀ actuator : Actuator, GetActuator name = some actuator →
      registry_find (create_actuator GetActuator name sim).actuators name = some actuator
        ∧ (∀ other : String, other ≠ name →
            registry_find (create_actuator GetActuator name sim).actuators other
              = registry_find sim.actuators other)
        ∧ (registry_find sim.actuators name = none →
            (create_actuator GetActuator name sim).actuators.length
              = sim.actuators.length + 1)
        ∧ (∀ old : Actuator, registry_find sim.actuators name = some old →
            (create_actuator GetActuator name sim).actuators.length
              = sim.actuators.length)
        ∧ ((sim.actuators.map Prod.fst).Nodup →
            ((create_actuator GetActuator name sim).actuators.map Prod.fst).Nodup)
        ∧ (create_actuator GetActuator name sim).sensors = sim.sensors) := by
  constructor
  · intro sensor hs
    have e1 : create_sensor GetSensor name sim
        = { sim with sensors := registry_assign sim.sensors name sensor } := by
      simp [create_sensor, hname, hs]
    rw [e1]
    exact ⟨registry_find_assign_self _ _ _,
      fun other h => registry_find_assign_ne _ _ _ _ h,
      fun h => registry_assign_length_absent _ _ _ h,
      fun old h => registry_assign_length_present _ _ _ old h,
      fun h => registry_assign_keys_nodup _ _ _ h, rfl⟩
  · intro actuator ha
    have e2 : create_actuator GetActuator name sim
        = { sim with actuators := registry_assign sim.actuators name actuator } := by
      simp [create_actuator, hname, ha]
    rw [e2]
    exact ⟨registry_find_assign_self _ _ _,
      fun other h => registry_find_assign_ne _ _ _ _ h,
      fun h => registry_assign_length_absent _ _ _ h,
      fun old h => registry_assign_length_present _ _ _ old h,
      fun h => registry_assign_keys_nodup _ _ _ h, rfl⟩

/-- Witness of C12: on `sensor_sim` the name `gyro` is already registered as a
sensor (the size stays 2) and the name `wheel` is absent as an actuator (the
size goes from 0 to 1). -/
theorem create_device_registers_witness :
    ("gyro" ≠ "" ∧ gyro_catalogue "gyro" = some gyro
        ∧ registry_find sensor_sim.sensors "gyro" = some gyro
        ∧ registry_find (create_sensor gyro_catalogue "gyro" sensor_sim).sensors "gyro"
            = some gyro
        ∧ (create_sensor gyro_catalogue "gyro" sensor_sim).sensors.length
            = sensor_sim.sensors.length)
      ∧ ("wheel" ≠ "" ∧ wheel_catalogue "wheel" = some accelerating_wheel
        ∧ registry_find sensor_sim.actuators "wheel" = none
        ∧ (create_actuator wheel_catalogue "wheel" sensor_sim).actuators.length
            = sensor_sim.actuators.length + 1) :=
  ⟨⟨by decide, by decide, by decide,
    ((create_device_registers gyro_catalogue wheel_catalogue "gyro" sensor_sim
      (by decide)).1 gyro (by decide)).1,
    ((create_device_registers gyro_catalogue wheel_catalogue "gyro" sensor_sim
      (by decide)).1 gyro (by decide)).2.2.2.1 gyro (by decide)⟩,
   ⟨by decide, by decide, by decide,
    ((create_device_registers gyro_catalogue wheel_catalogue "wheel" sensor_sim
      (by decide)).2 accelerating_wheel (by decide)).2.2.1 (by decide)⟩⟩

/-- C13: after `update_adcs_devices()` every sensor in the registry holds
`alpha_b × r` with `r` its own position and `alpha_b` the satellite's current
angular acceleration; a name maps to a sensor afterwards exactly when it did
before, at the same position; the names, the satellite, `simulation_time` and
the other fields are unchanged. -/
theorem update_adcs_devices_stores_cross (sim : Simulator) :
    (∀ (name : String) (s : Sensor), (name, s) ∈ (update_adcs_devices sim).sensors →
        s.current_vals = sim.satellite.alpha_b.cross s.position)
      ∧ (∀ name : String,
          registry_find (update_adcs_devices sim).sensors name
            = (registry_find sim.sensors name).map fun s =>
                { position := s.position
                  current_vals := sim.satellite.alpha_b.cross s.position })
      ∧ (update_adcs_devices sim).sensors.map Prod.fst = sim.sensors.map Prod.fst
      ∧ (update_adcs_devices sim).sensors.map (fun e => e.2.position)
          = sim.sensors.map (fun e => e.2.position)
      ∧ (update_adcs_devices sim).satellite = sim.satellite
      ∧ (update_adcs_devices sim).simulation_time = sim.simulation_time
      ∧ (update_adcs_devices sim).last_called = sim.last_called
      ∧ (update_adcs_devices sim).timestep_length = sim.timestep_length
      ∧ (update_adcs_devices sim).actuators = sim.actuators := by
  refine ⟨?_, ?_, ?_, ?_, rfl, rfl, rfl, rfl, rfl⟩
  · intro name s hmem
    simp only [update_adcs_devices, List.mem_map] at hmem
    obtain ⟨e, _, he⟩ := hmem
    cases he
    rfl
  · intro name
    simp only [update_adcs_devices]
    induction sim.sensors with
    | nil => rfl
    | cons e rest ih =>
      obtain ⟨k, v⟩ := e
      by_cases hk : k = name
      · simp [registry_find, hk]
      · simp only [List.map_cons, registry_find, hk, if_false]
        exact ih
  · simp [update_adcs_devices, List.map_map, Function.comp_def]
  · simp [update_adcs_devices, List.map_map, Function.comp_def]

/-- Witness of C13: on `sensor_sim` (`alpha_b = (0, 0, 2)`) the sensor `accel`
mounted at `(0, 1, 0)` holds `(-2, 0, 0)` after the refresh. -/
theorem update_adcs_devices_stores_cross_witness :
    (("accel", { position := ⟨0, 1, 0⟩, current_vals := ⟨-2, 0, 0⟩ }) :
        String × Sensor) ∈ (update_adcs_devices sensor_sim).sensors
      ∧ (⟨-2, 0, 0⟩ : Vec3) = sensor_sim.satellite.alpha_b.cross ⟨0, 1, 0⟩ := by
  have hmem : (("accel", { position := ⟨0, 1, 0⟩, current_vals := ⟨-2, 0, 0⟩ }) :
      String × Sensor) ∈ (update_adcs_devices sensor_sim).sensors := by
    simp [update_adcs_devices, sensor_sim, spinning_sim, spinning_satellite, gyro,
      Vec3.cross]
  exact ⟨hmem, (update_adcs_devices_stores_cross sensor_sim).1 _ _ hmem⟩


/-- C16: for `t >= 0` the guard of the loop of `simulate` is true in the state
it is entered with and after every number of iterations, so `simulate` never
leaves the loop (it runs out of any amount of fuel) and never reaches
`update_adcs_devices()`. -/
theorem simulate_loop_never_exits (t : timestamp) (ht : 0 ≤ t) (sim : Simulator) :
    (∀ n : Nat, loop_guard (loop_state n sim) t = true)
      ∧ ∀ fuel : Nat, simulate fuel sim t = none := by
  refine ⟨fun n => ?_, fun fuel => simulate_of_nonneg t ht fuel sim⟩
  rw [loop_guard_eq]
  exact decide_eq_true ht

/-- Witness of C16: `t = 0` on `spinning_sim`. -/
theorem simulate_loop_never_exits_witness :
    (0 : timestamp) ≤ 0 ∧ simulate 7 spinning_sim 0 = none :=
  ⟨le_refl _, (simulate_loop_never_exits 0 (le_refl _) spinning_sim).2 7⟩

/-- C17: for `t < 0` the guard of the loop of `simulate` is false on entry, so
`simulate(t)` performs no `timestep()` and comes back with the result of one
`update_adcs_devices()` on the state it was entered with: `simulation_time`
and the satellite (`theta_b`, `omega_b`, `alpha_b`, `inertia_b`) are
unchanged. -/
theorem simulate_negative_runs_no_step (t : timestamp) (ht : t < 0) (sim : Simulator)
    (fuel : Nat) :
    loop_guard sim t = false
      ∧ simulate (fuel + 1) sim t = some (update_adcs_devices sim)
      ∧ (update_adcs_devices sim).simulation_time = sim.simulation_time
      ∧ (update_adcs_devices sim).satellite = sim.satellite := by
  refine ⟨?_, simulate_of_neg t ht fuel sim, rfl, rfl⟩
  rw [loop_guard_eq]
  exact decide_eq_false (not_le.mpr ht)

/-- Witness of C17: `t = -1` on `sensor_sim`. -/
theorem simulate_negative_runs_no_step_witness :
    (-1 : timestamp) < 0
      ∧ simulate 1 sensor_sim (-1) = some (update_adcs_devices sensor_sim) :=
  ⟨by decide, (simulate_negative_runs_no_step (-1) (by decide) sensor_sim 0).2.1⟩

/-- C18: for an invertible `inertia_b` the acceleration that `timestep()`
computes satisfies `omega_b . (inertia_b * alpha_b') = 0`, with `omega_b` the
value before the step. -/
theorem timestep_alpha_does_no_work (sim : Simulator)
    (h : sim.satellite.inertia_b.det ≠ 0) :
    sim.satellite.omega_b.dot
        (sim.satellite.inertia_b.mulVec (timestep sim).satellite.alpha_b) = 0 := by
  show sim.satellite.omega_b.dot
    (sim.satellite.inertia_b.mulVec
      (sim.satellite.inertia_b.inverse.neg.mulVec
        (sim.satellite.omega_b.cross
          (sim.satellite.inertia_b.mulVec sim.satellite.omega_b)))) = 0
  rw [Mat3.mulVec_neg_inverse _ _ h]
  simp only [Vec3.dot, Vec3.neg, Vec3.cross]
  ring

/-- Witness of C18: `spinning_sim`, inertia `diag(1, 2, 3)` of determinant 6. -/
theorem timestep_alpha_does_no_work_witness :
    spinning_sim.satellite.inertia_b.det ≠ 0
      ∧ spinning_sim.satellite.omega_b.dot
          (spinning_sim.satellite.inertia_b.mulVec
            (timestep spinning_sim).satellite.alpha_b) = 0 :=
  ⟨by simp [spinning_sim, spinning_satellite, Mat3.det],
   timestep_alpha_does_no_work spinning_sim
     (by simp [spinning_sim, spinning_satellite, Mat3.det])⟩

/-- C19: a body at rest stays at rest. If `omega_b = 0` before `timestep()`,
then afterwards `alpha_b = 0`, `omega_b = 0` and `theta_b` is unchanged,
whatever the inertia, the step size and the actuators. -/
theorem timestep_at_rest_stays_at_rest (sim : Simulator)
    (h : sim.satellite.omega_b = Vec3.zero) :
    (timestep sim).satellite.alpha_b = Vec3.zero
      ∧ (timestep sim).satellite.omega_b = Vec3.zero
      ∧ (timestep sim).satellite.theta_b = sim.satellite.theta_b := by
  have hc : sim.satellite.omega_b.cross
      (sim.satellite.inertia_b.mulVec sim.satellite.omega_b) = Vec3.zero := by
    rw [h]
    simp [Vec3.cross, Vec3.zero]
  obtain ⟨ha, ho⟩ := timestep_with_of_cross_zero Mat3.inverse sim hc
  have ho' : (timestep sim).satellite.omega_b = Vec3.zero := ho.trans h
  refine ⟨ha, ho', ?_⟩
  show sim.satellite.theta_b.add
    ((timestep sim).satellite.omega_b.smul (sim.timestep_length : ℚ)) = _
  rw [ho']
  simp [Vec3.add, Vec3.smul, Vec3.zero]

/-- Witness of C19: `wheel_sim`, at rest with an accelerating wheel on board. -/
theorem timestep_at_rest_stays_at_rest_witness :
    wheel_sim.satellite.omega_b = Vec3.zero
      ∧ (timestep wheel_sim).satellite.omega_b = Vec3.zero :=
  ⟨rfl, (timestep_at_rest_stays_at_rest wheel_sim rfl).2.1⟩


end AdcsSim
